import Mathlib

/-!
Shallow embedding of the llm-gateway repository (Go) for checking its
natural-language specification.  Each definition below is translated from a
named function of the source tree; floats are modelled as exact rationals
(`ℚ`), Go `int64` as `ℤ`, and `time.Time` / `time.Duration` values as integer
nanosecond counts, matching Go's internal representation.
-/

namespace LLMGateway

/-! ### Generic string helpers

`Go strings.Contains` and prefix tests, modelled over `List Char`.  Lean's
`String` is a list of unicode scalar values, which is in bijection with its
UTF-8 byte serialisation, so equality of `List Char` values coincides with
equality of the Go byte strings. -/

/-- Prefix test: `leadsWith needle hay` is true when `hay` starts with
`needle` (models `strings.HasPrefix hay needle`). -/
def leadsWith : List Char → List Char → Bool
  | [], _ => true
  | _ :: _, [] => false
  | a :: as, b :: bs => a == b && leadsWith as bs

/-- Substring test: models Go `strings.Contains hay needle`. -/
def hasSub (needle : List Char) : List Char → Bool
  | [] => needle.isEmpty
  | c :: t => leadsWith needle (c :: t) || hasSub needle t

/-- Go `strings.Contains` on `String` values. -/
def hasSubStr (hay needle : String) : Bool := hasSub needle.data hay.data

theorem leadsWith_spec (n h : List Char) : leadsWith n h = true ↔ n <+: h := by
  induction n generalizing h with
  | nil => simp [leadsWith]
  | cons a as ih =>
    cases h with
    | nil => simp [leadsWith]
    | cons b bs =>
      simp [leadsWith, ih, List.cons_prefix_cons, and_comm]

/-! ### Profiler data model (`internal/llm/profiler.go`) -/

/-- Model of `ModelProfile` from `internal/llm/profiler.go`.  Timestamps are integer
nanoseconds; `float64` fields are exact rationals. -/
structure ModelProfile where
  modelID : String
  avgLatencyMS : ℤ
  costPerInputToken : ℚ
  costPerOutputToken : ℚ
  status : String
  errorRate : ℚ
  totalSuccesses : ℤ
  totalFailures : ℤ
  totalInputTokens : ℤ
  totalOutputTokens : ℤ
  lastHealthCheck : ℤ
  costSpentMonthly : ℚ
  deriving DecidableEq, Repr

/-- Model of `createDefaultProfile` from `internal/llm/profiler.go`.  `costs` is the
`modelCosts[modelID]` lookup: `none` models a missing cost-config entry, in
which case the Go code falls back to zero costs.  `now` is `time.Now()` in
nanoseconds. -/
def createDefaultProfile (modelID : String) (costs : Option (ℚ × ℚ)) (now : ℤ) :
    ModelProfile :=
  let c := costs.getD (0, 0)
  { modelID := modelID
    avgLatencyMS := 2000
    costPerInputToken := c.1
    costPerOutputToken := c.2
    status := "online"
    totalSuccesses := 1
    totalFailures := 0
    totalInputTokens := 0
    totalOutputTokens := 0
    errorRate := 0
    lastHealthCheck := now
    costSpentMonthly := 0 }

/-- Model of `GetProfile` from `internal/llm/profiler.go`.  The Redis hash read is
modelled by `stored`: `stored id = none` means the profile hash for `id` is
absent (empty `HGetAll` result), in which case the Go code creates the default
profile; otherwise the parsed stored profile is returned unchanged. -/
def getProfile (stored : String → Option ModelProfile)
    (costs : String → Option (ℚ × ℚ)) (now : ℤ) (modelID : String) :
    ModelProfile :=
  match stored modelID with
  | none => createDefaultProfile modelID (costs modelID) now
  | some p => p

/-- Go's `int64(x)` conversion of a `float64`: truncation toward zero. -/
def goTruncToInt (q : ℚ) : ℤ := if 0 ≤ q then ⌊q⌋ else ⌈q⌉

/-- The EWMA smoothing factor `alpha` from `UpdateProfileOnSuccess`. -/
def alpha : ℚ := 1 / 10

/-- The latency update of `UpdateProfileOnSuccess`
(`internal/llm/profiler.go`):
`newLatency := int64((alpha * float64(latency.Milliseconds())) + ((1.0 - alpha) * float64(currentLatency)))`. -/
def ewmaNewLatency (observedMs currentMs : ℤ) : ℤ :=
  goTruncToInt (alpha * (observedMs : ℚ) + (1 - alpha) * (currentMs : ℚ))

/-- Rounding to the nearest integer (the spec's `round`), half away from zero. -/
def roundNearest (q : ℚ) : ℤ := if 0 ≤ q then ⌊q + 1 / 2⌋ else ⌈q - 1 / 2⌉

/-- Model of `UpdateProfileOnSuccess` from `internal/llm/profiler.go` as a pure state
transition on the stored profile.  `latencyMs` is `latency.Milliseconds()`;
`pt`/`ct` are `usage.PromptTokens` / `usage.CompletionTokens`; `ci`/`co` are
the `modelCosts[modelID]` input/output per-token costs.  The month-keyed cost
counter is modelled by the `costSpentMonthly` field. -/
def updateProfileOnSuccess (p : ModelProfile) (latencyMs pt ct : ℤ)
    (ci co : ℚ) : ModelProfile :=
  let newLatency := ewmaNewLatency latencyMs p.avgLatencyMS
  let succ := p.totalSuccesses + 1
  let fails := p.totalFailures
  { p with
    avgLatencyMS := newLatency
    totalSuccesses := succ
    totalInputTokens := p.totalInputTokens + pt
    totalOutputTokens := p.totalOutputTokens + ct
    status := "online"
    costSpentMonthly := p.costSpentMonthly + ((pt : ℚ) * ci + (ct : ℚ) * co)
    errorRate :=
      if 0 < succ + fails then (fails : ℚ) / ((succ + fails : ℤ) : ℚ)
      else p.errorRate }

/-- Model of `UpdateProfileOnFailure` from `internal/llm/profiler.go` as a pure state
transition: increment `total_failures`, set status `degraded`, recompute the
error rate when the denominator is positive. -/
def updateProfileOnFailure (p : ModelProfile) : ModelProfile :=
  let fails := p.totalFailures + 1
  { p with
    totalFailures := fails
    status := "degraded"
    errorRate :=
      if 0 < p.totalSuccesses + fails then
        (fails : ℚ) / ((p.totalSuccesses + fails : ℤ) : ℚ)
      else p.errorRate }

/-! ### Router (`internal/llm/router.go`) -/

/-- Model of `RoutingStrategy` from `internal/llm/router.go`. -/
structure RoutingStrategy where
  useCodingScore : Bool
  qualityWeight : ℚ
  costWeight : ℚ
  latencyWeight : ℚ
  deriving DecidableEq, Repr

/-- Model of `ModelMetadata` from `internal/llm/router.go`. -/
structure ModelMetadata where
  qualityScore : ℚ
  codingScore : ℚ
  deriving DecidableEq, Repr

/-- The `pre_check_thresholds` entries read by `passesPreChecks` and
`getStrategy`.  `healthStaleness` is the parsed
`health_check_staleness` duration, in nanoseconds. -/
structure PrecheckThresholds where
  healthStaleness : ℤ
  maxErrorRate : ℚ
  minRequestCount : ℤ
  deriving DecidableEq, Repr

/-- Association-list lookup standing in for a Go `map[string]V` read. -/
def assocFind {α : Type} (k : String) : List (String × α) → Option α
  | [] => none
  | (j, v) :: t => if j = k then some v else assocFind k t

/-- Model of `RouterConfig` from `internal/llm/router.go`; the Go maps are modelled as
association lists keyed by strings. -/
structure RouterConfig where
  thresholds : PrecheckThresholds
  models : List (String × ModelMetadata)
  strategies : List (String × RoutingStrategy)

/-- Which pre-check fired.  The Go function returns a formatted reason
string; only which branch produced it matters to the spec, so the reason is
abstracted to a tag. -/
inductive FilterReason where
  | ok
  | offline
  | stale
  | overBudget
  | highErrorRate
  deriving DecidableEq, Repr

/-- Model of `passesPreChecks` from `internal/llm/router.go`.  `now` is the current
time in nanoseconds, so `time.Since(profile.LastHealthCheck)` is
`now - profile.lastHealthCheck`. -/
def passesPreChecks (cfg : RouterConfig) (now : ℤ) (profile : ModelProfile)
    (monthlyBudget : ℚ) : Bool × FilterReason :=
  if profile.status = "offline" then (false, .offline)
  else if cfg.thresholds.healthStaleness < now - profile.lastHealthCheck then
    (false, .stale)
  else if 0 < monthlyBudget ∧ monthlyBudget ≤ profile.costSpentMonthly then
    (false, .overBudget)
  else if cfg.thresholds.minRequestCount <
        profile.totalSuccesses + profile.totalFailures ∧
      cfg.thresholds.maxErrorRate < profile.errorRate then
    (false, .highErrorRate)
  else (true, .ok)

/-- Model of `contender` from `internal/llm/router.go`. -/
structure Contender where
  profile : ModelProfile
  metadata : ModelMetadata
  estimatedCost : ℚ
  deriving DecidableEq, Repr

/-- The per-call cost estimate in `SelectOptimalModel`:
`estimatedOutputTokens := promptTokens * 2` and
`estimatedCost := float64(promptTokens)*CostPerInputToken + float64(estimatedOutputTokens)*CostPerOutputToken`. -/
def estimateCost (promptTokens : ℤ) (profile : ModelProfile) : ℚ :=
  (promptTokens : ℚ) * profile.costPerInputToken +
    ((promptTokens * 2 : ℤ) : ℚ) * profile.costPerOutputToken

/-- Insert-or-replace into an association list: models assignment into the
`contenders` Go map (`contenders[modelID] = ...`). -/
def upsert {α : Type} (k : String) (v : α) :
    List (String × α) → List (String × α)
  | [] => [(k, v)]
  | (j, w) :: t => if j = k then (k, v) :: t else (j, w) :: upsert k v t

/-- One iteration of pass 1 of `SelectOptimalModel`: look up the profile
(`none` models a `GetProfile` error → `continue`), run the pre-checks, look
up the configured metadata (keyed by `profile.ModelID`, as in the source),
and on success store the contender under `modelID`. -/
def contenderStep (cfg : RouterConfig) (now : ℤ)
    (profiles : String → Option ModelProfile) (budgets : String → ℚ)
    (promptTokens : ℤ) (acc : List (String × Contender))
    (modelID : String) : List (String × Contender) :=
  match profiles modelID with
  | none => acc
  | some profile =>
    if (passesPreChecks cfg now profile (budgets modelID)).1 then
      match assocFind profile.modelID cfg.models with
      | none => acc
      | some modelMeta =>
        upsert modelID
          { profile := profile
            metadata := modelMeta
            estimatedCost := estimateCost promptTokens profile } acc
    else acc

/-- Pass 1 of `SelectOptimalModel`: build the contender pool.  `profiles`
models `r.profiler.GetProfile` (with `none` for the error/skip case) and
`budgets` models the `modelBudgets` map read (a missing key reads as `0` in
Go).  Go iterates `availableModels` in order; the contender map is modelled
as an insert-or-replace association list. -/
def contendersOf (cfg : RouterConfig) (now : ℤ)
    (profiles : String → Option ModelProfile) (budgets : String → ℚ)
    (promptTokens : ℤ) (availableModels : List String) :
    List (String × Contender) :=
  availableModels.foldl (contenderStep cfg now profiles budgets promptTokens)
    []

/-- The zero value of `RoutingStrategy` (what a missing Go map read yields in
`getStrategy`'s smart-balanced branch). -/
def zeroStrategy : RoutingStrategy :=
  { useCodingScore := false, qualityWeight := 0, costWeight := 0,
    latencyWeight := 0 }

/-- Model of `getStrategy` from `internal/llm/router.go`. -/
def getStrategy (cfg : RouterConfig) (preference : String)
    (contenders : List (String × Contender)) :
    Except String RoutingStrategy :=
  if preference = "smart-balanced" then
    let avgCost :=
      (contenders.foldl (fun s c => s + c.2.estimatedCost) 0) /
        ((contenders.length : ℤ) : ℚ)
    if avgCost < 1 / 1000 then
      .ok ((assocFind "latency-focused-balanced" cfg.strategies).getD
        zeroStrategy)
    else
      .ok ((assocFind "quality-focused-balanced" cfg.strategies).getD
        zeroStrategy)
  else
    match assocFind preference cfg.strategies with
    | some s => .ok s
    | none =>
      match assocFind "default" cfg.strategies with
      | some s => .ok s
      | none => .error "default strategy not found in configuration"

/-- Constant `math.MaxFloat64`, the initial min bound in `getNormalizationBounds`. -/
def maxFloat64 : ℚ := 2 ^ 1024 - 2 ^ 971

/-- Model of `getNormalizationBounds` from `internal/llm/router.go`:
`(minCost, maxCost, minLatency, maxLatency)` over the contender pool. -/
def getNormalizationBounds (contenders : List (String × Contender)) :
    ℚ × ℚ × ℚ × ℚ :=
  contenders.foldl
    (fun (b : ℚ × ℚ × ℚ × ℚ) c =>
      let (minCost, maxCost, minLatency, maxLatency) := b
      let minCost := if c.2.estimatedCost < minCost then c.2.estimatedCost
        else minCost
      let maxCost := if maxCost < c.2.estimatedCost then c.2.estimatedCost
        else maxCost
      let latency := ((c.2.profile.avgLatencyMS : ℤ) : ℚ)
      let minLatency := if latency < minLatency then latency else minLatency
      let maxLatency := if maxLatency < latency then latency else maxLatency
      (minCost, maxCost, minLatency, maxLatency))
    (maxFloat64, 0, maxFloat64, 0)

/-- Model of `calculateNormalizedScore` from `internal/llm/router.go`. -/
def calculateNormalizedScore (c : Contender) (strategy : RoutingStrategy)
    (minCost maxCost minLatency maxLatency : ℚ) : ℚ :=
  let latencyFactor :=
    if minLatency < maxLatency then
      (maxLatency - ((c.profile.avgLatencyMS : ℤ) : ℚ)) /
        (maxLatency - minLatency)
    else (1 : ℚ) / 2
  let costFactor :=
    if minCost < maxCost then
      (maxCost - c.estimatedCost) / (maxCost - minCost)
    else (1 : ℚ) / 2
  let qualityFactor :=
    if strategy.useCodingScore then c.metadata.codingScore / 10
    else c.metadata.qualityScore / 10
  let reliabilityFactor := 1 - c.profile.errorRate
  (strategy.qualityWeight * qualityFactor + strategy.costWeight * costFactor +
    strategy.latencyWeight * latencyFactor) * reliabilityFactor

/-- Pass 2's selection loop in `SelectOptimalModel`: starting from
`bestModel = ""`, `bestScore = -1.0`, keep any contender whose score strictly
exceeds the best so far.  Go iterates the contender map in unspecified order;
the model fixes the association-list order (the membership properties proved
below are order-independent). -/
def scoreStep (strategy : RoutingStrategy)
    (minCost maxCost minLatency maxLatency : ℚ) (best : String × ℚ)
    (c : String × Contender) : String × ℚ :=
  let score := calculateNormalizedScore c.2 strategy minCost maxCost
    minLatency maxLatency
  if best.2 < score then (c.1, score) else best

/-- Fold form of the pass-2 loop over the contender pool. -/
def scoreLoop (strategy : RoutingStrategy)
    (minCost maxCost minLatency maxLatency : ℚ)
    (contenders : List (String × Contender)) : String × ℚ :=
  contenders.foldl (scoreStep strategy minCost maxCost minLatency maxLatency)
    ("", -1)

/-- The error message of `SelectOptimalModel` when no contender survives. -/
def noSuitableMsg : String :=
  "no suitable, healthy, and in-budget model found after filtering"

/-- Model of `SelectOptimalModel` from `internal/llm/router.go`. -/
def selectOptimalModel (cfg : RouterConfig) (now : ℤ)
    (availableModels : List String)
    (profiles : String → Option ModelProfile) (preference : String)
    (promptTokens : ℤ) (budgets : String → ℚ) : Except String String :=
  let contenders :=
    contendersOf cfg now profiles budgets promptTokens availableModels
  match contenders with
  | [] => .error noSuitableMsg
  | [(modelID, _)] => .ok modelID
  | _ =>
    match getStrategy cfg preference contenders with
    | .error e => .error e
    | .ok strategy =>
      let (minCost, maxCost, minLatency, maxLatency) :=
        getNormalizationBounds contenders
      let best := scoreLoop strategy minCost maxCost minLatency maxLatency
        contenders
      if best.1 = "" then .error "failed to select a model after scoring"
      else .ok best.1

/-! ### Intent analyzer (`internal/llm/intent_analyzer.go`) -/

/-- The intent constants from `internal/llm/intent_analyzer.go`. -/
def IntentWeather : String := "weather"

/-- Intent constant `IntentCalculator`. -/
def IntentCalculator : String := "calculator"

/-- Intent constant `IntentNews`. -/
def IntentNews : String := "news"

/-- Intent constant `IntentRAG`. -/
def IntentRAG : String := "rag_knowledge_query"

/-- The apostrophe character, built from its code point. -/
def apostrophe : Char := Char.ofNat 39

/-- The weather keyword list of `AnalyzeIntent`. -/
def weatherKeywords : List (List Char) :=
  ["weather".data, "forecast".data, "temperature".data, "how hot is it".data,
    "is it raining".data]

/-- The news keyword list of `AnalyzeIntent` (the fourth entry spells
`what`&apostrophe&`s happening in`). -/
def newsKeywords : List (List Char) :=
  ["news".data, "headlines".data, "latest on".data,
    "what".data ++ apostrophe :: "s happening in".data]

/-- RE2's `\s` character class: `[\t\n\f\r ]`. -/
def goSpace (c : Char) : Bool :=
  c == ' ' || c == '\t' || c == '\n' || c == Char.ofNat 12 || c == '\r'

/-- The operator class `[+\-*/]` of `calculatorRegex`. -/
def calcOp (c : Char) : Bool :=
  c == '+' || c == '-' || c == '*' || c == '/'

/-- Whether `calculatorRegex` = `\d+\s*[+\-*/]\s*\d+` matches at the start of
`l`.  Because `\d`, `\s` and the operator class are pairwise disjoint, the
regex is matched by deterministic maximal munch: take all leading digits
(at least one), all spaces, one operator, all spaces, then require a digit. -/
def calcMatchAt : List Char → Bool
  | [] => false
  | c :: rest =>
    c.isDigit &&
      (match (rest.dropWhile Char.isDigit).dropWhile goSpace with
        | op :: rest2 =>
          calcOp op &&
            (match rest2.dropWhile goSpace with
              | d :: _ => d.isDigit
              | [] => false)
        | [] => false)

/-- Predicate `f` holds on some suffix of the list (a regex match may start anywhere). -/
def anySuffix (f : List Char → Bool) : List Char → Bool
  | [] => f []
  | c :: t => f (c :: t) || anySuffix f t

/-- Model of `calculatorRegex.MatchString`: the regex matches somewhere in `l`. -/
def calcMatch (l : List Char) : Bool := anySuffix calcMatchAt l

/-- Model of `AnalyzeIntent` from `internal/llm/intent_analyzer.go`.  The two keyword
loops with early `return` are the same function as `List.any`; lowercasing
uses `Char.toLower` (ASCII case folding, which agrees with Go's
`strings.ToLower` on all the keyword alphabets involved). -/
def analyzeIntent (prompt : List Char) : String :=
  let lowerPrompt := prompt.map Char.toLower
  if weatherKeywords.any (fun keyword => hasSub keyword lowerPrompt) then
    IntentWeather
  else if newsKeywords.any (fun keyword => hasSub keyword lowerPrompt) then
    IntentNews
  else if calcMatch lowerPrompt then IntentCalculator
  else IntentRAG

/-! ### Calculator tool (`internal/tools/calculator_tool.go`) -/

/-- The parsed argument struct of `CalculatorTool.Execute`. -/
structure CalcArgs where
  operand1 : ℚ
  operand2 : ℚ
  operator : String
  deriving DecidableEq, Repr

/-- Rendering of the `%g`-formatted result value.  The claims only constrain
the arithmetic value, not Go's float formatting; integers print without a
denominator. -/
def fmtNum (q : ℚ) : String :=
  if q.den = 1 then toString q.num
  else toString q.num ++ "/" ++ toString q.den

/-- The success message `"The result is %g."`. -/
def resultMsg (q : ℚ) : String := "The result is " ++ fmtNum q ++ "."

/-- The message `"Error: Unsupported operator '<op>'. Please use +, -, *, or /."`. -/
def unsupportedMsg (op : String) : String :=
  "Error: Unsupported operator " ++ apostrophe.toString ++ op ++
    apostrophe.toString ++ ". Please use +, -, *, or /."

/-- Model of `CalculatorTool.Execute` from `internal/tools/calculator_tool.go`.  The
input models `json.Unmarshal` of the argument string: `.error e` is a failed
unmarshal carrying the JSON error text, `.ok args` the parsed struct.
Arithmetic on the `float64` operands is modelled exactly over `ℚ`. -/
def calcExecute : Except String CalcArgs → Except String String
  | .error e => .error ("invalid arguments for calculator: " ++ e)
  | .ok args =>
    if args.operator = "+" then .ok (resultMsg (args.operand1 + args.operand2))
    else if args.operator = "-" then
      .ok (resultMsg (args.operand1 - args.operand2))
    else if args.operator = "*" then
      .ok (resultMsg (args.operand1 * args.operand2))
    else if args.operator = "/" then
      if args.operand2 = 0 then .ok "Error: Division by zero is not allowed."
      else .ok (resultMsg (args.operand1 / args.operand2))
    else .ok (unsupportedMsg args.operator)

/-! ### Versioned cache key (`internal/version/version.go`) -/

/-- The version triple of `ComponentVersions` (a package-level variable whose
values can differ between builds; the claims compare keys across version
values, so the triple is a parameter here). -/
structure ComponentVersions where
  tools : List Char
  ragData : List Char
  promptLogic : List Char
  deriving DecidableEq, Repr

/-- The `fmt.Sprintf("tv%s_rv%s_pv%s", ...)` component of the cache key. -/
def versionString (v : ComponentVersions) : List Char :=
  "tv".data ++ v.tools ++ "_rv".data ++ v.ragData ++ "_pv".data ++
    v.promptLogic

/-- Model of `GenerateVersionedCacheKey` from `internal/version/version.go`.  The
prompt is its UTF-8 byte sequence (`[]byte(prompt)`, a `List Nat`); `h`
abstracts `hex.EncodeToString(sha256.Sum(...))` — the hash is applied to the
prompt bytes only, with no normalization. -/
def generateVersionedCacheKey (h : List Nat → List Char)
    (pre : List Char) (promptBytes : List Nat) (v : ComponentVersions) :
    List Char :=
  pre ++ ':' :: (h promptBytes ++ ':' :: versionString v)

/-- A concrete stand-in hash for witnesses: hex dump of the byte list. -/
def hexDigit (n : Nat) : Char :=
  if n < 10 then Char.ofNat (48 + n) else Char.ofNat (87 + n)

/-- Hex dump of a byte list (two hex characters per byte). -/
def hexOfBytes : List Nat → List Char
  | [] => []
  | b :: t => hexDigit (b / 16 % 16) :: hexDigit (b % 16) :: hexOfBytes t

/-- No character of `l` is an underscore. -/
def noUnderscore (l : List Char) : Bool := l.all (fun c => c != '_')

/-! ### Request handler (`cmd/gateway/handler.go`) -/

/-- The session hash `session:<conversation_id>` ({model_id, is_forced}). -/
structure Session where
  modelID : String
  isForced : Bool
  deriving DecidableEq, Repr

/-- The request fields consumed by `determineModelID`:
`conversation_id`, `prompt`, the history message contents, and
`config.force_model` / `config.preference`. -/
structure GenRequest where
  conversationID : String
  prompt : String
  history : List String
  forceModel : String
  preference : String
  deriving DecidableEq, Repr

/-- The observable outcome of `determineModelID`: a chosen model (with
optional failover original), the 424 Failed-Dependency response of
`suggestHealthyAlternatives`, or the 503 when the router errors. -/
inductive DetOutcome where
  | chosen (modelID : String) (failoverFrom : Option String)
  | refused424 (modelID : String)
  | failed503 (msg : String)
  deriving DecidableEq, Repr

/-- The token estimate in `determineModelID`:
`(len(prompt) + Σ len(msg.Content)) / 4` (Go `len` counts bytes). -/
def estTokens (req : GenRequest) : ℕ :=
  (req.prompt.utf8ByteSize +
    (req.history.map String.utf8ByteSize).sum) / 4

/-- Section B of `determineModelID` (`cmd/gateway/handler.go`): the
new-chat / routing block reached when section A falls through.  `pref` is
the (possibly failover-overwritten) `req.Config.Preference` and `failover`
the failover info accumulated in section A.  The returned list collects the
`pinSession` calls as `(conversation_id, model_id, is_forced)` triples. -/
def routeAfterSession (getProf : String → Option ModelProfile)
    (routerSelect : String → ℕ → Except String String)
    (analyze : String → String) (req : GenRequest) (pref : String)
    (failover : Option String) :
    DetOutcome × List (String × String × Bool) :=
  if req.conversationID ≠ "" ∧ req.forceModel ≠ "" then
    match getProf req.forceModel with
    | some profile =>
      if profile.status = "online" then
        (.chosen req.forceModel none,
          [(req.conversationID, req.forceModel, true)])
      else (.refused424 req.forceModel, [])
    | none => (.refused424 req.forceModel, [])
  else
    let pref := if pref = "" then analyze req.prompt else pref
    match routerSelect pref (estTokens req) with
    | .error e => (.failed503 e, [])
    | .ok modelID =>
      (.chosen modelID failover,
        if req.conversationID ≠ "" then
          [(req.conversationID, modelID, false)]
        else [])

/-- Model of `determineModelID` from `cmd/gateway/handler.go` as a pure function.
`sessions` models the Redis session-hash read (`none` for a missing or
errored read), `getProf` the profiler lookup (`none` when `GetProfile`
errors), `routerSelect` the call `SelectOptimalModel(..., preference,
estimatedTokens, ...)`, and `analyze` the prompt analyzer.  TTL refreshes
are not observable in the claims and are omitted; `pinSession` calls are
returned as effect triples. -/
def determineModelID (sessions : String → Option Session)
    (getProf : String → Option ModelProfile)
    (routerSelect : String → ℕ → Except String String)
    (analyze : String → String) (req : GenRequest) :
    DetOutcome × List (String × String × Bool) :=
  let sess :=
    if req.conversationID ≠ "" then sessions req.conversationID else none
  match sess with
  | some sd =>
    if sd.isForced then
      match getProf sd.modelID with
      | some profile =>
        if profile.status = "online" then (.chosen sd.modelID none, [])
        else
          routeAfterSession getProf routerSelect analyze req "max_quality"
            (some sd.modelID)
      | none =>
        routeAfterSession getProf routerSelect analyze req "max_quality"
          (some sd.modelID)
    else
      match getProf sd.modelID with
      | some profile =>
        if profile.status = "online" then
          if req.preference = "" then (.chosen sd.modelID none, [])
          else
            routeAfterSession getProf routerSelect analyze req
              req.preference none
        else
          routeAfterSession getProf routerSelect analyze req req.preference
            (some sd.modelID)
      | none =>
        routeAfterSession getProf routerSelect analyze req req.preference
          (some sd.modelID)
  | none => routeAfterSession getProf routerSelect analyze req req.preference
      none

/-! ### Concrete fixtures used by witnesses -/

/-- A concrete router configuration for witnesses: ten-minute staleness
window, 20% max error rate, 50-request minimum. -/
def cfgA : RouterConfig :=
  { thresholds :=
      { healthStaleness := 600 * 1000000000, maxErrorRate := 1 / 5,
        minRequestCount := 50 },
    models := [("m1", ⟨8, 7⟩), ("m2", ⟨6, 9⟩)],
    strategies := [("default", ⟨false, 1 / 2, 1 / 4, 1 / 4⟩)] }

/-- A concrete healthy profile for witnesses. -/
def profA (lat : ℤ) (id : String) : ModelProfile :=
  { modelID := id, avgLatencyMS := lat, costPerInputToken := 1 / 1000000,
    costPerOutputToken := 2 / 1000000, status := "online", errorRate := 0,
    totalSuccesses := 10, totalFailures := 0, totalInputTokens := 0,
    totalOutputTokens := 0, lastHealthCheck := 0, costSpentMonthly := 0 }

/-- A concrete profiler lookup for witnesses. -/
def profilesA (id : String) : Option ModelProfile :=
  if id = "m1" then some (profA 1000 "m1")
  else if id = "m2" then some (profA 2000 "m2")
  else none

/-- The all-zero budget map (a missing Go map key reads as zero). -/
def budget0 : String → ℚ := fun _ => 0

/-! ### C3 — default profile creation -/

/-- Counterexample to claim C3: the default profile created for an absent
profile hash has `total_successes = 1`, not `0` — the Go literal in
`createDefaultProfile` is `TotalSuccesses: 1`. -/
theorem getProfile_default_totalSuccesses_ne_zero :
    (getProfile (fun _ => none) (fun _ => some (1, 2)) 5 "m").totalSuccesses
      ≠ 0 := by decide

/-- Claim C3 (amended): `GetProfile` on a model id whose profile hash is
absent creates and returns a default profile with `avg_latency_ms = 2000`,
`status = "online"`, `total_successes = 1`, the remaining counters
(`total_failures`, `total_input_tokens`, `total_output_tokens`) equal to 0,
`error_rate = 0`, and the configured per-token input and output costs. -/
theorem getProfile_absent_creates_default
    (stored : String → Option ModelProfile)
    (costs : String → Option (ℚ × ℚ)) (now : ℤ) (id : String) (ci co : ℚ)
    (habsent : stored id = none) (hcosts : costs id = some (ci, co)) :
    getProfile stored costs now id =
      { modelID := id, avgLatencyMS := 2000, costPerInputToken := ci,
        costPerOutputToken := co, status := "online", errorRate := 0,
        totalSuccesses := 1, totalFailures := 0, totalInputTokens := 0,
        totalOutputTokens := 0, lastHealthCheck := now,
        costSpentMonthly := 0 } := by
  simp [getProfile, habsent, createDefaultProfile, hcosts]

/-- Witness for C3's amended theorem at a concrete absent profile. -/
theorem getProfile_absent_creates_default_witness :
    getProfile (fun _ => none) (fun _ => some (1, 2)) 5 "m" =
      { modelID := "m", avgLatencyMS := 2000, costPerInputToken := 1,
        costPerOutputToken := 2, status := "online", errorRate := 0,
        totalSuccesses := 1, totalFailures := 0, totalInputTokens := 0,
        totalOutputTokens := 0, lastHealthCheck := 5,
        costSpentMonthly := 0 } :=
  getProfile_absent_creates_default (fun _ => none) (fun _ => some (1, 2))
    5 "m" 1 2 rfl rfl

/-! ### C4 — EWMA latency update -/

/-- Counterexample to claim C4: the Go update converts with `int64(...)`,
which truncates toward zero rather than rounding.  For observed latency 1 ms
and previous average 2 ms the exact EWMA value is 1.9; the code stores 1
while rounding would store 2. -/
theorem ewma_not_round :
    ewmaNewLatency 1 2 = 1 ∧
      roundNearest (alpha * ((1 : ℤ) : ℚ) + (1 - alpha) * ((2 : ℤ) : ℚ)) =
        2 := by
  constructor <;>
    norm_num [ewmaNewLatency, goTruncToInt, alpha, roundNearest]

/-- Claim C4 (amended): each EWMA latency update stores
`int64(α·o + (1−α)·p)`, i.e. the value truncated toward zero (equal to the
floor for the non-negative latencies involved), and therefore satisfies the
spec's quantitative bound `|new − ((1−α)·old + α·observed)| < 1`. -/
theorem ewma_trunc_bound (o p : ℤ) (ho : 0 ≤ o) (hp : 0 ≤ p) :
    ewmaNewLatency o p = ⌊alpha * (o : ℚ) + (1 - alpha) * (p : ℚ)⌋ ∧
      |((ewmaNewLatency o p : ℤ) : ℚ) -
        ((1 - alpha) * (p : ℚ) + alpha * (o : ℚ))| < 1 := by
  have hx : (0 : ℚ) ≤ alpha * (o : ℚ) + (1 - alpha) * (p : ℚ) := by
    have ho' : (0 : ℚ) ≤ (o : ℚ) := by exact_mod_cast ho
    have hp' : (0 : ℚ) ≤ (p : ℚ) := by exact_mod_cast hp
    have : (0 : ℚ) ≤ alpha := by norm_num [alpha]
    have : (0 : ℚ) ≤ 1 - alpha := by norm_num [alpha]
    positivity
  have hfl : ewmaNewLatency o p =
      ⌊alpha * (o : ℚ) + (1 - alpha) * (p : ℚ)⌋ := by
    simp [ewmaNewLatency, goTruncToInt, hx]
  refine ⟨hfl, ?_⟩
  set x : ℚ := alpha * (o : ℚ) + (1 - alpha) * (p : ℚ) with hxdef
  have hcomm : (1 - alpha) * (p : ℚ) + alpha * (o : ℚ) = x := by
    rw [hxdef]; ring
  rw [hfl, hcomm, abs_sub_comm]
  have h1 : x - (⌊x⌋ : ℚ) = Int.fract x := rfl
  rw [h1, abs_of_nonneg (Int.fract_nonneg x)]
  exact Int.fract_lt_one x

/-- Witness for C4's amended theorem at observed 1 ms, previous 2 ms. -/
theorem ewma_trunc_bound_witness :
    ewmaNewLatency 1 2 = ⌊alpha * ((1 : ℤ) : ℚ) + (1 - alpha) * ((2 : ℤ) : ℚ)⌋ ∧
      |((ewmaNewLatency 1 2 : ℤ) : ℚ) -
        ((1 - alpha) * ((2 : ℤ) : ℚ) + alpha * ((1 : ℤ) : ℚ))| < 1 :=
  ewma_trunc_bound 1 2 (by decide) (by decide)

/-! ### C5 — error-rate invariant -/

/-- Claim C5 (confirmed): after `UpdateProfileOnSuccess` as well as after
`UpdateProfileOnFailure`, the stored `error_rate` equals
`total_failures / (total_successes + total_failures)` whenever that
denominator is positive; both update paths recompute it. -/
theorem errorRate_invariant (p : ModelProfile) (lm pt ct : ℤ) (ci co : ℚ) :
    (0 < (updateProfileOnSuccess p lm pt ct ci co).totalSuccesses +
        (updateProfileOnSuccess p lm pt ct ci co).totalFailures →
      (updateProfileOnSuccess p lm pt ct ci co).errorRate =
        ((updateProfileOnSuccess p lm pt ct ci co).totalFailures : ℚ) /
          (((updateProfileOnSuccess p lm pt ct ci co).totalSuccesses +
            (updateProfileOnSuccess p lm pt ct ci co).totalFailures : ℤ) :
            ℚ)) ∧
    (0 < (updateProfileOnFailure p).totalSuccesses +
        (updateProfileOnFailure p).totalFailures →
      (updateProfileOnFailure p).errorRate =
        ((updateProfileOnFailure p).totalFailures : ℚ) /
          (((updateProfileOnFailure p).totalSuccesses +
            (updateProfileOnFailure p).totalFailures : ℤ) : ℚ)) := by
  constructor
  · intro h
    simp only [updateProfileOnSuccess] at h ⊢
    rw [if_pos h]
  · intro h
    simp only [updateProfileOnFailure] at h ⊢
    rw [if_pos h]

/-- Witness for C5 at the default profile: after one success the rate is
0/2, after one failure it is 1/2. -/
theorem errorRate_invariant_witness :
    (updateProfileOnSuccess (createDefaultProfile "m" (some (1, 2)) 0)
        100 10 20 1 2).errorRate =
      ((updateProfileOnSuccess (createDefaultProfile "m" (some (1, 2)) 0)
          100 10 20 1 2).totalFailures : ℚ) /
        (((updateProfileOnSuccess (createDefaultProfile "m" (some (1, 2)) 0)
            100 10 20 1 2).totalSuccesses +
          (updateProfileOnSuccess (createDefaultProfile "m" (some (1, 2)) 0)
            100 10 20 1 2).totalFailures : ℤ) : ℚ) ∧
    (updateProfileOnFailure (createDefaultProfile "m" (some (1, 2)) 0)).errorRate =
      ((updateProfileOnFailure (createDefaultProfile "m" (some (1, 2)) 0)).totalFailures : ℚ) /
        (((updateProfileOnFailure (createDefaultProfile "m" (some (1, 2)) 0)).totalSuccesses +
          (updateProfileOnFailure (createDefaultProfile "m" (some (1, 2)) 0)).totalFailures : ℤ) : ℚ) :=
  ⟨(errorRate_invariant (createDefaultProfile "m" (some (1, 2)) 0)
      100 10 20 1 2).1 (by decide),
    (errorRate_invariant (createDefaultProfile "m" (some (1, 2)) 0)
      100 10 20 1 2).2 (by decide)⟩

/-! ### C6 — staleness boundary -/

/-- Claim C6 (confirmed): with a non-offline status, a `last_health_check`
lying exactly `health_check_staleness` in the past never trips the staleness
check (the pre-check filter cannot report the model stale), while a
`last_health_check` lying strictly beyond — in particular one microsecond
(1000 ns) beyond — always yields the staleness exclusion. -/
theorem staleness_boundary (cfg : RouterConfig) (now : ℤ)
    (profile : ModelProfile) (budget : ℚ)
    (hs : profile.status ≠ "offline") :
    (now - profile.lastHealthCheck = cfg.thresholds.healthStaleness →
      passesPreChecks cfg now profile budget ≠ (false, .stale)) ∧
    (now - profile.lastHealthCheck =
        cfg.thresholds.healthStaleness + 1000 →
      passesPreChecks cfg now profile budget = (false, .stale)) ∧
    (cfg.thresholds.healthStaleness < now - profile.lastHealthCheck →
      passesPreChecks cfg now profile budget = (false, .stale)) := by
  refine ⟨?_, ?_, ?_⟩
  · intro hb
    have hnl : ¬ cfg.thresholds.healthStaleness <
        now - profile.lastHealthCheck := by omega
    simp only [passesPreChecks, if_neg hs, if_neg hnl]
    split_ifs <;> simp
  · intro hb
    have hlt : cfg.thresholds.healthStaleness <
        now - profile.lastHealthCheck := by omega
    simp only [passesPreChecks, if_neg hs, if_pos hlt]
  · intro hlt
    simp only [passesPreChecks, if_neg hs, if_pos hlt]

/-- Witness for C6: with a ten-minute staleness window, a probe exactly at
the limit is not stale while a probe one microsecond beyond is. -/
theorem staleness_boundary_witness :
    passesPreChecks cfgA (600 * 1000000000) (profA 1000 "m1") 0 ≠
        (false, .stale) ∧
      passesPreChecks cfgA (600 * 1000000000 + 1000) (profA 1000 "m1") 0 =
        (false, .stale) :=
  ⟨(staleness_boundary cfgA (600 * 1000000000) (profA 1000 "m1") 0
      (by decide)).1 (by decide),
    (staleness_boundary cfgA (600 * 1000000000 + 1000) (profA 1000 "m1") 0
      (by decide)).2.1 (by decide)⟩

/-! ### C7 — intent classification cascade -/

/-- Claim C7 (confirmed): intent classification is the first-match-wins
cascade over the lowercased prompt — any weather keyword wins (so a prompt
with both a weather and a news keyword is classified `weather`), else any
news keyword, else a `\d+\s*[+\-*/]\s*\d+` regex match, else the RAG
intent. -/
theorem analyzeIntent_cascade (p : List Char) :
    (analyzeIntent p = IntentWeather ↔
      weatherKeywords.any
        (fun k => hasSub k (p.map Char.toLower)) = true) ∧
    (analyzeIntent p = IntentNews ↔
      (weatherKeywords.any
          (fun k => hasSub k (p.map Char.toLower)) = false ∧
        newsKeywords.any
          (fun k => hasSub k (p.map Char.toLower)) = true)) ∧
    (analyzeIntent p = IntentCalculator ↔
      (weatherKeywords.any
          (fun k => hasSub k (p.map Char.toLower)) = false ∧
        newsKeywords.any
          (fun k => hasSub k (p.map Char.toLower)) = false ∧
        calcMatch (p.map Char.toLower) = true)) ∧
    (analyzeIntent p = IntentRAG ↔
      (weatherKeywords.any
          (fun k => hasSub k (p.map Char.toLower)) = false ∧
        newsKeywords.any
          (fun k => hasSub k (p.map Char.toLower)) = false ∧
        calcMatch (p.map Char.toLower) = false)) := by
  rcases hW : weatherKeywords.any
      (fun k => hasSub k (p.map Char.toLower)) with _ | _ <;>
    rcases hN : newsKeywords.any
      (fun k => hasSub k (p.map Char.toLower)) with _ | _ <;>
    rcases hC : calcMatch (p.map Char.toLower) with _ | _ <;>
    simp [analyzeIntent, hW, hN, hC, IntentWeather, IntentNews,
      IntentCalculator, IntentRAG]

/-! ### C8 — calculator tool -/

theorem leadsWith_append (n h t : List Char) (hp : leadsWith n h = true) :
    leadsWith n (h ++ t) = true := by
  rw [leadsWith_spec] at hp ⊢
  exact hp.trans (List.prefix_append h t)

theorem hasSub_of_leadsWith (n l : List Char) (hp : leadsWith n l = true) :
    hasSub n l = true := by
  cases l with
  | nil =>
    cases n with
    | nil => rfl
    | cons a as => simp [leadsWith] at hp
  | cons c t => simp [hasSub, hp]

/-- Claim C8 (confirmed): the calculator tool's `Execute` returns a Go error
containing "invalid arguments" exactly when unmarshalling the argument JSON
fails; division by zero and unsupported operators are reported as
*successful* text results ("Error: Division by zero is not allowed." and a
message starting "Error: Unsupported operator"), and every supported
operator yields "The result is ⟨value⟩." for the exact arithmetic result. -/
theorem calcExecute_spec (e : String) (a : CalcArgs) :
    (calcExecute (.error e) =
        .error ("invalid arguments for calculator: " ++ e) ∧
      hasSubStr ("invalid arguments for calculator: " ++ e)
        "invalid arguments" = true) ∧
    (a.operator = "/" → a.operand2 = 0 →
      calcExecute (.ok a) = .ok "Error: Division by zero is not allowed.") ∧
    (a.operator ≠ "+" → a.operator ≠ "-" → a.operator ≠ "*" →
      a.operator ≠ "/" →
      calcExecute (.ok a) = .ok (unsupportedMsg a.operator) ∧
        leadsWith "Error: Unsupported operator".data
          (unsupportedMsg a.operator).data = true) ∧
    (a.operator = "+" →
      calcExecute (.ok a) = .ok (resultMsg (a.operand1 + a.operand2))) ∧
    (a.operator = "-" →
      calcExecute (.ok a) = .ok (resultMsg (a.operand1 - a.operand2))) ∧
    (a.operator = "*" →
      calcExecute (.ok a) = .ok (resultMsg (a.operand1 * a.operand2))) ∧
    (a.operator = "/" → a.operand2 ≠ 0 →
      calcExecute (.ok a) = .ok (resultMsg (a.operand1 / a.operand2))) := by
  refine ⟨⟨rfl, ?_⟩, ?_, ?_, ?_, ?_, ?_, ?_⟩
  · show hasSub "invalid arguments".data
      ("invalid arguments for calculator: " ++ e).data = true
    rw [String.data_append]
    exact hasSub_of_leadsWith _ _
      (leadsWith_append _ "invalid arguments for calculator: ".data _
        (by decide))
  · intro hop hz
    simp [calcExecute, hop, hz]
  · intro h1 h2 h3 h4
    refine ⟨by simp [calcExecute, h1, h2, h3, h4], ?_⟩
    show leadsWith "Error: Unsupported operator".data
      ("Error: Unsupported operator " ++ apostrophe.toString ++ a.operator ++
        apostrophe.toString ++ ". Please use +, -, *, or /.").data = true
    rw [String.data_append, String.data_append, String.data_append,
      String.data_append]
    rw [List.append_assoc, List.append_assoc, List.append_assoc]
    exact leadsWith_append _ "Error: Unsupported operator ".data _ (by decide)
  · intro hop; simp [calcExecute, hop]
  · intro hop; simp [calcExecute, hop]
  · intro hop; simp [calcExecute, hop]
  · intro hop hz; simp [calcExecute, hop, hz]

/-- Witness for C8: concrete division by zero, unsupported operator, and an
exact multiplication. -/
theorem calcExecute_spec_witness :
    calcExecute (.ok ⟨1, 0, "/"⟩) =
        .ok "Error: Division by zero is not allowed." ∧
      calcExecute (.ok ⟨1, 2, "%"⟩) = .ok (unsupportedMsg "%") ∧
      calcExecute (.ok ⟨12, 7, "*"⟩) = .ok (resultMsg (12 * 7 : ℚ)) :=
  ⟨(calcExecute_spec "x" ⟨1, 0, "/"⟩).2.1 rfl rfl,
    ((calcExecute_spec "x" ⟨1, 2, "%"⟩).2.2.1 (by decide) (by decide)
      (by decide) (by decide)).1,
    (calcExecute_spec "x" ⟨12, 7, "*"⟩).2.2.2.2.2.1 rfl⟩

/-! ### C2 — empty and singleton contender pools -/

/-- Counterexample to claim C2: with zero surviving models the router's
error is "no suitable, healthy, and in-budget model found after filtering",
which does not contain the contiguous wording "no suitable model". -/
theorem select_empty_msg_counterexample :
    selectOptimalModel cfgA 0 [] profilesA "default" 100 budget0 =
        .error noSuitableMsg ∧
      hasSubStr noSuitableMsg "no suitable model" = false :=
  ⟨rfl, by decide⟩

/-- Claim C2 (amended): when zero models survive the pre-filter,
`SelectOptimalModel` returns the error "no suitable, healthy, and in-budget
model found after filtering" (which contains "no suitable" and "model", but
not the contiguous phrase "no suitable model"); when exactly one model
survives, that model is returned — for every configuration, hence regardless
of strategy weights and scores. -/
theorem select_empty_and_single (cfg : RouterConfig) (now : ℤ)
    (avail : List String) (profiles : String → Option ModelProfile)
    (budgets : String → ℚ) (pref : String) (ptoks : ℤ) :
    (contendersOf cfg now profiles budgets ptoks avail = [] →
      selectOptimalModel cfg now avail profiles pref ptoks budgets =
          .error noSuitableMsg ∧
        hasSubStr noSuitableMsg "no suitable" = true ∧
        hasSubStr noSuitableMsg "model" = true) ∧
    (∀ (id : String) (c : Contender),
      contendersOf cfg now profiles budgets ptoks avail = [(id, c)] →
      selectOptimalModel cfg now avail profiles pref ptoks budgets =
        .ok id) := by
  constructor
  · intro h
    refine ⟨?_, by decide, by decide⟩
    simp only [selectOptimalModel, h]
  · intro id c h
    simp only [selectOptimalModel, h]

/-- Witness for C2's amended theorem: an empty model list yields the error,
and a pool whose single survivor is `m1` returns `m1`. -/
theorem select_empty_and_single_witness :
    selectOptimalModel cfgA 0 [] profilesA "cost" 100 budget0 =
        .error noSuitableMsg ∧
      selectOptimalModel cfgA 0 ["m1"] profilesA "cost" 100 budget0 =
        .ok "m1" :=
  ⟨((select_empty_and_single cfgA 0 [] profilesA budget0 "cost" 100).1
      rfl).1,
    (select_empty_and_single cfgA 0 ["m1"] profilesA budget0 "cost" 100).2
      "m1"
      ⟨profA 1000 "m1", ⟨8, 7⟩, estimateCost 100 (profA 1000 "m1")⟩
      rfl⟩

/-! ### C1 — router soundness -/

theorem passesPreChecks_true_iff (cfg : RouterConfig) (now : ℤ)
    (prof : ModelProfile) (b : ℚ) :
    (passesPreChecks cfg now prof b).1 = true ↔
      (¬ prof.status = "offline" ∧
        ¬ cfg.thresholds.healthStaleness < now - prof.lastHealthCheck ∧
        ¬ (0 < b ∧ b ≤ prof.costSpentMonthly) ∧
        ¬ (cfg.thresholds.minRequestCount <
            prof.totalSuccesses + prof.totalFailures ∧
          cfg.thresholds.maxErrorRate < prof.errorRate)) := by
  unfold passesPreChecks
  split_ifs with h1 h2 h3 h4
  · exact iff_of_false (fun h => nomatch h) (fun hr => hr.1 h1)
  · exact iff_of_false (fun h => nomatch h) (fun hr => hr.2.1 h2)
  · exact iff_of_false (fun h => nomatch h) (fun hr => hr.2.2.1 h3)
  · exact iff_of_false (fun h => nomatch h) (fun hr => hr.2.2.2 h4)
  · exact iff_of_true rfl ⟨h1, h2, h3, h4⟩

theorem mem_upsert {α : Type} (k : String) (v : α)
    (l : List (String × α)) (id : String) (c : α)
    (h : (id, c) ∈ upsert k v l) : (id = k ∧ c = v) ∨ (id, c) ∈ l := by
  induction l with
  | nil =>
    simp only [upsert, List.mem_singleton] at h
    injection h with h1 h2
    exact Or.inl ⟨h1, h2⟩
  | cons hd tl ih =>
    obtain ⟨j, w⟩ := hd
    simp only [upsert] at h
    split at h
    · rcases List.mem_cons.mp h with h' | h'
      · injection h' with h1 h2
        exact Or.inl ⟨h1, h2⟩
      · exact Or.inr (List.mem_cons_of_mem _ h')
    · rcases List.mem_cons.mp h with h' | h'
      · exact Or.inr (List.mem_cons.mpr (Or.inl h'))
      · rcases ih h' with h'' | h''
        · exact Or.inl h''
        · exact Or.inr (List.mem_cons_of_mem _ h'')

theorem mem_contenderStep (cfg : RouterConfig) (now : ℤ)
    (profiles : String → Option ModelProfile) (budgets : String → ℚ)
    (ptoks : ℤ) (acc : List (String × Contender)) (m : String)
    (id : String) (c : Contender)
    (h : (id, c) ∈ contenderStep cfg now profiles budgets ptoks acc m) :
    (id, c) ∈ acc ∨
      (id = m ∧ ∃ prof meta, profiles m = some prof ∧
        (passesPreChecks cfg now prof (budgets m)).1 = true ∧
        assocFind prof.modelID cfg.models = some meta ∧
        c = ⟨prof, meta, estimateCost ptoks prof⟩) := by
  unfold contenderStep at h
  split at h
  · exact Or.inl h
  · rename_i prof hp
    split at h
    · rename_i hpass
      split at h
      · exact Or.inl h
      · rename_i meta hf
        rcases mem_upsert _ _ _ _ _ h with ⟨rfl, rfl⟩ | hmem
        · exact Or.inr ⟨rfl, prof, meta, hp, hpass, hf, rfl⟩
        · exact Or.inl hmem
    · exact Or.inl h

theorem contenders_fold_sound (cfg : RouterConfig) (now : ℤ)
    (profiles : String → Option ModelProfile) (budgets : String → ℚ)
    (ptoks : ℤ) :
    ∀ (ms : List String) (acc : List (String × Contender)),
      (∀ id c, (id, c) ∈ acc →
        ∃ prof, profiles id = some prof ∧ c.profile = prof ∧
          (passesPreChecks cfg now prof (budgets id)).1 = true) →
      ∀ id c,
        (id, c) ∈
          ms.foldl (contenderStep cfg now profiles budgets ptoks) acc →
        ∃ prof, profiles id = some prof ∧ c.profile = prof ∧
          (passesPreChecks cfg now prof (budgets id)).1 = true := by
  intro ms
  induction ms with
  | nil => intro acc hacc id c h; exact hacc id c h
  | cons m tl ih =>
    intro acc hacc id c h
    refine ih (contenderStep cfg now profiles budgets ptoks acc m) ?_ id c h
    intro id' c' h'
    rcases mem_contenderStep cfg now profiles budgets ptoks acc m id' c' h'
      with hold | ⟨rfl, prof, meta, hp, hpass, _, rfl⟩
    · exact hacc id' c' hold
    · exact ⟨prof, hp, rfl, hpass⟩

theorem scoreLoop_fold_mem (strategy : RoutingStrategy)
    (minC maxC minL maxL : ℚ) :
    ∀ (cs : List (String × Contender)) (init : String × ℚ),
      (cs.foldl (scoreStep strategy minC maxC minL maxL) init).1 = init.1 ∨
        (cs.foldl (scoreStep strategy minC maxC minL maxL) init).1 ∈
          cs.map Prod.fst := by
  intro cs
  induction cs with
  | nil => intro init; exact Or.inl rfl
  | cons c tl ih =>
    intro init
    rw [List.foldl_cons]
    rcases ih (scoreStep strategy minC maxC minL maxL init c) with h | h
    · rw [h]
      by_cases hlt : init.2 <
          calculateNormalizedScore c.2 strategy minC maxC minL maxL
      · right
        have hs : (scoreStep strategy minC maxC minL maxL init c).1 =
            c.1 := by
          simp [scoreStep, hlt]
        rw [hs, List.map_cons]
        exact List.mem_cons_self _ _
      · left
        have hs : (scoreStep strategy minC maxC minL maxL init c).1 =
            init.1 := by
          simp [scoreStep, hlt]
        exact hs
    · right
      rw [List.map_cons]
      exact List.mem_cons_of_mem _ h

/-- Claim C1 (confirmed): whenever `SelectOptimalModel` returns a model id,
that id belongs to the contender pool, and every member of the contender
pool has a successfully fetched profile that fails none of the pre-checks:
it is not offline, its health check is not stale, it is not at or over a
positive monthly budget, and it is not over the error-rate limit while
having more than `min_request_count` requests. -/
theorem select_sound (cfg : RouterConfig) (now : ℤ) (avail : List String)
    (profiles : String → Option ModelProfile) (budgets : String → ℚ)
    (pref : String) (ptoks : ℤ) (m : String)
    (h : selectOptimalModel cfg now avail profiles pref ptoks budgets =
      .ok m) :
    (∃ c, (m, c) ∈ contendersOf cfg now profiles budgets ptoks avail) ∧
      (∀ id c, (id, c) ∈ contendersOf cfg now profiles budgets ptoks avail →
        ∃ prof, profiles id = some prof ∧ c.profile = prof ∧
          ¬ prof.status = "offline" ∧
          now - prof.lastHealthCheck ≤ cfg.thresholds.healthStaleness ∧
          ¬ (0 < budgets id ∧ budgets id ≤ prof.costSpentMonthly) ∧
          ¬ (cfg.thresholds.minRequestCount <
              prof.totalSuccesses + prof.totalFailures ∧
            cfg.thresholds.maxErrorRate < prof.errorRate)) := by
  have hsound : ∀ id c,
      (id, c) ∈ contendersOf cfg now profiles budgets ptoks avail →
      ∃ prof, profiles id = some prof ∧ c.profile = prof ∧
        ¬ prof.status = "offline" ∧
        now - prof.lastHealthCheck ≤ cfg.thresholds.healthStaleness ∧
        ¬ (0 < budgets id ∧ budgets id ≤ prof.costSpentMonthly) ∧
        ¬ (cfg.thresholds.minRequestCount <
            prof.totalSuccesses + prof.totalFailures ∧
          cfg.thresholds.maxErrorRate < prof.errorRate) := by
    intro id c hmem
    obtain ⟨prof, hp, hcp, hpass⟩ :=
      contenders_fold_sound cfg now profiles budgets ptoks avail []
        (by intro _ _ h'; cases h') id c hmem
    obtain ⟨h1, h2, h3, h4⟩ := (passesPreChecks_true_iff cfg now prof
      (budgets id)).mp hpass
    exact ⟨prof, hp, hcp, h1, not_lt.mp h2, h3, h4⟩
  refine ⟨?_, hsound⟩
  unfold selectOptimalModel at h
  dsimp only at h
  split at h
  · cases h
  · rename_i id c heq
    injection h with h'
    subst h'
    exact ⟨c, by rw [heq]; exact List.mem_cons_self _ _⟩
  · rcases hst : getStrategy cfg pref
        (contendersOf cfg now profiles budgets ptoks avail) with e | strat
    · rw [hst] at h; cases h
    · rw [hst] at h
      rcases hb : getNormalizationBounds
          (contendersOf cfg now profiles budgets ptoks avail) with
        ⟨mc, xc, ml, xl⟩
      rw [hb] at h
      dsimp only at h
      split at h
      · cases h
      · rename_i hne
        injection h with h'
        subst h'
        rcases scoreLoop_fold_mem strat mc xc ml xl
            (contendersOf cfg now profiles budgets ptoks avail) ("", -1)
          with h0 | hmem
        · exact absurd h0 hne
        · obtain ⟨⟨id', c'⟩, hmem', hfst⟩ := List.mem_map.mp hmem
          exact ⟨c', hfst ▸ hmem'⟩

/-- Witness for C1 at a concrete one-model configuration: the returned model
`m1` is in the contender pool and every contender passes the pre-checks. -/
theorem select_sound_witness :
    (∃ c, ("m1", c) ∈ contendersOf cfgA 0 profilesA budget0 100 ["m1"]) ∧
      (∀ id c, (id, c) ∈ contendersOf cfgA 0 profilesA budget0 100 ["m1"] →
        ∃ prof, profilesA id = some prof ∧ c.profile = prof ∧
          ¬ prof.status = "offline" ∧
          0 - prof.lastHealthCheck ≤ cfgA.thresholds.healthStaleness ∧
          ¬ (0 < budget0 id ∧ budget0 id ≤ prof.costSpentMonthly) ∧
          ¬ (cfgA.thresholds.minRequestCount <
              prof.totalSuccesses + prof.totalFailures ∧
            cfgA.thresholds.maxErrorRate < prof.errorRate)) :=
  select_sound cfgA 0 ["m1"] profilesA budget0 "default" 100 "m1" rfl

/-! ### C10 — force_model ignored without a conversation id -/

/-- Claim C10 (confirmed): when `conversation_id` is empty, `force_model` is
ignored entirely: the outcome is exactly the router's choice under the
given preference (or the analyzer-derived one when the preference is
empty), no 424 offline check can be answered, no session is pinned, and the
outcome is identical to that of the same request with `force_model`
cleared. -/
theorem determine_ignores_force_empty_convo
    (sessions : String → Option Session)
    (getProf : String → Option ModelProfile)
    (routerSelect : String → ℕ → Except String String)
    (analyze : String → String) (req : GenRequest)
    (hconv : req.conversationID = "") :
    determineModelID sessions getProf routerSelect analyze req =
        ((match routerSelect
            (if req.preference = "" then analyze req.prompt
              else req.preference) (estTokens req) with
          | .ok m => DetOutcome.chosen m none
          | .error e => DetOutcome.failed503 e), []) ∧
      determineModelID sessions getProf routerSelect analyze req =
        determineModelID sessions getProf routerSelect analyze
          { req with forceModel := "" } := by
  have h1 : ∀ (fm : String),
      determineModelID sessions getProf routerSelect analyze
          { req with forceModel := fm } =
        ((match routerSelect
            (if req.preference = "" then analyze req.prompt
              else req.preference) (estTokens req) with
          | .ok m => DetOutcome.chosen m none
          | .error e => DetOutcome.failed503 e), []) := by
    intro fm
    simp only [determineModelID, routeAfterSession, hconv, ne_eq,
      not_true_eq_false, if_false, false_and, estTokens]
    rcases routerSelect
        (if req.preference = "" then analyze req.prompt else req.preference)
        ((req.prompt.utf8ByteSize +
          (req.history.map String.utf8ByteSize).sum) / 4) with e | m <;>
      simp
  have hreq : { req with forceModel := req.forceModel } = req := rfl
  refine ⟨?_, ?_⟩
  · have := h1 req.forceModel
    rwa [hreq] at this
  · have h2 := h1 req.forceModel
    rw [hreq] at h2
    rw [h2, h1 ""]

/-- Witness for C10: a request with an empty conversation id and a set
`force_model` routes through the router oracle. -/
theorem determine_ignores_force_empty_convo_witness :
    determineModelID (fun _ => none) profilesA (fun _ _ => .ok "m2")
        (fun _ => "balanced") ⟨"", "hello", [], "m1", ""⟩ =
        ((match (fun (_ : String) (_ : ℕ) =>
              (.ok "m2" : Except String String)) "balanced"
            (estTokens ⟨"", "hello", [], "m1", ""⟩) with
          | .ok m => DetOutcome.chosen m none
          | .error e => DetOutcome.failed503 e), []) ∧
      determineModelID (fun _ => none) profilesA (fun _ _ => .ok "m2")
          (fun _ => "balanced") ⟨"", "hello", [], "m1", ""⟩ =
        determineModelID (fun _ => none) profilesA (fun _ _ => .ok "m2")
          (fun _ => "balanced") ⟨"", "hello", [], "", ""⟩ :=
  determine_ignores_force_empty_convo (fun _ => none) profilesA
    (fun _ _ => .ok "m2") (fun _ => "balanced") ⟨"", "hello", [], "m1", ""⟩
    rfl

/-! ### C9 — versioned cache key -/

theorem split_at_underscore :
    ∀ (a1 : List Char) (a2 x1 x2 : List Char),
      noUnderscore a1 = true → noUnderscore a2 = true →
      a1 ++ '_' :: x1 = a2 ++ '_' :: x2 → a1 = a2 ∧ x1 = x2 := by
  intro a1
  induction a1 with
  | nil =>
    intro a2 x1 x2 _ h2 heq
    cases a2 with
    | nil =>
      injection heq with _ ht
      exact ⟨rfl, ht⟩
    | cons b bs =>
      injection heq with hb _
      simp only [noUnderscore, List.all_cons, Bool.and_eq_true, bne_iff_ne,
        ne_eq] at h2
      exact absurd hb.symm h2.1
  | cons a as ih =>
    intro a2 x1 x2 h1 h2 heq
    simp only [noUnderscore, List.all_cons, Bool.and_eq_true, bne_iff_ne,
      ne_eq] at h1
    cases a2 with
    | nil =>
      injection heq with hb _
      exact absurd hb h1.1
    | cons b bs =>
      injection heq with hb ht
      simp only [noUnderscore, List.all_cons, Bool.and_eq_true, bne_iff_ne,
        ne_eq] at h2
      obtain ⟨hA, hX⟩ := ih bs x1 x2 (by simp [noUnderscore, h1.2])
        (by simp [noUnderscore, h2.2]) ht
      exact ⟨by rw [hb, hA], hX⟩

theorem versionString_inj (v1 v2 : ComponentVersions)
    (h1 : noUnderscore v1.tools = true)
    (h2 : noUnderscore v1.ragData = true)
    (h3 : noUnderscore v2.tools = true)
    (h4 : noUnderscore v2.ragData = true)
    (h : versionString v1 = versionString v2) : v1 = v2 := by
  obtain ⟨t1, r1, p1⟩ := v1
  obtain ⟨t2, r2, p2⟩ := v2
  simp only [versionString] at h h1 h2 h3 h4
  simp only [List.append_assoc, List.cons_append, List.nil_append] at h
  injection h with _ h
  injection h with _ h
  obtain ⟨hT, h⟩ := split_at_underscore t1 t2 _ _ h1 h3 h
  injection h with _ h
  injection h with _ h
  obtain ⟨hR, h⟩ := split_at_underscore r1 r2 _ _ h2 h4 h
  injection h with _ h
  injection h with _ hP
  rw [hT, hR, hP]

/-- Counterexample to claim C9: equality of versioned cache keys does not
force equality of the component versions, because the
`tv…_rv…_pv…` concatenation is ambiguous.  With tools version `1_rv2`, RAG
version `3` versus tools version `1`, RAG version `2_rv3`, both keys carry
the version suffix `tv1_rv2_rv3_pvx` and the full keys coincide while the
tools versions differ. -/
theorem versionedKey_counterexample :
    generateVersionedCacheKey hexOfBytes "llmcache".data [104, 105]
        ⟨"1_rv2".data, "3".data, "x".data⟩ =
      generateVersionedCacheKey hexOfBytes "llmcache".data [104, 105]
        ⟨"1".data, "2_rv3".data, "x".data⟩ ∧
      "1_rv2".data ≠ "1".data := by
  constructor
  · rfl
  · decide

/-- Claim C9 (amended): for a hash of equal output length on the two prompts
that does not collide on them (the idealisation of SHA-256), and provided
the tools and RAG-data version strings contain no underscore (otherwise the
`tv…_rv…_pv…` concatenation is ambiguous — see the counterexample), two
versioned cache keys with the same prefix are equal iff the prompt byte
sequences are identical and all three component versions are identical.
The hash is applied to the prompt bytes only, with no normalization. -/
theorem versionedKey_iff (h : List Nat → List Char) (pre : List Char)
    (p1 p2 : List Nat) (v1 v2 : ComponentVersions)
    (hlen : (h p1).length = (h p2).length)
    (hcoll : h p1 = h p2 → p1 = p2)
    (h1 : noUnderscore v1.tools = true)
    (h2 : noUnderscore v1.ragData = true)
    (h3 : noUnderscore v2.tools = true)
    (h4 : noUnderscore v2.ragData = true) :
    generateVersionedCacheKey h pre p1 v1 =
        generateVersionedCacheKey h pre p2 v2 ↔
      (p1 = p2 ∧ v1 = v2) := by
  constructor
  · intro heq
    unfold generateVersionedCacheKey at heq
    have h5 := List.append_cancel_left heq
    injection h5 with _ h5
    obtain ⟨hh, h6⟩ := List.append_inj h5 hlen
    injection h6 with _ h6
    exact ⟨hcoll hh, versionString_inj v1 v2 h1 h2 h3 h4 h6⟩
  · rintro ⟨rfl, rfl⟩
    rfl

/-- Witness for C9's amended theorem with the hex hash, equal prompts and
the repository's `v1.0` versions. -/
theorem versionedKey_iff_witness :
    generateVersionedCacheKey hexOfBytes "llmcache".data [104, 105]
          ⟨"v1.0".data, "v1.0".data, "v1.0".data⟩ =
        generateVersionedCacheKey hexOfBytes "llmcache".data [104, 105]
          ⟨"v1.0".data, "v1.0".data, "v1.0".data⟩ ↔
      ([104, 105] = ([104, 105] : List Nat) ∧
        (⟨"v1.0".data, "v1.0".data, "v1.0".data⟩ : ComponentVersions) =
          ⟨"v1.0".data, "v1.0".data, "v1.0".data⟩) :=
  versionedKey_iff hexOfBytes "llmcache".data [104, 105] [104, 105]
    ⟨"v1.0".data, "v1.0".data, "v1.0".data⟩
    ⟨"v1.0".data, "v1.0".data, "v1.0".data⟩ rfl (fun _ => rfl)
    (by decide) (by decide) (by decide) (by decide)

end LLMGateway
